import Mathlib

/-!
Verification of the camera control and navigation state machine of the
property walkthrough application (source file src/App.tsx).

The development shallowly embeds the pieces of the source that the
specification talks about:

* the view registry `viewCameraStates` and the defensive pose lookup
  `viewCameraStates[key] || viewCameraStates.default` (App.tsx line 963);
* the navigation coordinator: the React state of `App` and `SceneContent`
  (`currentViewKey`, `tourStarted`, `activeControls`, `isTransitioning`,
  `cameraAnimationTarget`, `tourIdx`, `tourActive`, `isSpinning`,
  `nextIdx`) together with the event handlers `handleNavigate`,
  `handleStartTour`, the `useEffect` hooks keyed on `tourStarted` and
  `currentViewKey`, `handleAnimationEnd`, the spin spring `onRest`
  callback and the `setTimeout` pause callback it schedules
  (App.tsx lines 950-1018, 1083-1095);
* the per frame movement of `PlayerControls` (App.tsx lines 762-853) with
  its collision probes, and the spring state of `CameraAnimator`
  (App.tsx lines 867-922).

Machine floats are modelled by `ℚ` (the source performs only field
operations apart from the final normalisation, whose square root is
modelled in `ℝ`).  Scene geometry is an external collaborator and enters
only through the ray query `hit : origin → direction → Bool`
(`raycaster.intersectObject(model, true).length > 0` bounded by
`COLLISION_THRESHOLD`).  React `useEffect` hooks with dependency lists
run exactly when their dependency changed; a `setState` with an unchanged
value does not re-render and does not re-run effects.  Those platform
semantics are encoded directly in the step functions below.
-/

namespace PropTour

/-! ### Vectors -/

/-- Three dimensional vector over `ℚ`, the model of a three.js `Vector3`. -/
structure V3 where
  x : ℚ
  y : ℚ
  z : ℚ
deriving DecidableEq, Repr

instance : Zero V3 := ⟨⟨0, 0, 0⟩⟩

instance : Add V3 := ⟨fun a b => ⟨a.x + b.x, a.y + b.y, a.z + b.z⟩⟩

instance : Neg V3 := ⟨fun a => ⟨-a.x, -a.y, -a.z⟩⟩

instance : SMul ℚ V3 := ⟨fun c a => ⟨c * a.x, c * a.y, c * a.z⟩⟩

/-- Dot product over `ℚ`. -/
def dotQ (a b : V3) : ℚ := a.x * b.x + a.y * b.y + a.z * b.z

/-- Three dimensional vector over `ℝ`, used for the camera position once
the (irrational) normalisation step has been applied. -/
structure V3R where
  x : ℝ
  y : ℝ
  z : ℝ

instance : Zero V3R := ⟨⟨0, 0, 0⟩⟩

instance : Add V3R := ⟨fun a b => ⟨a.x + b.x, a.y + b.y, a.z + b.z⟩⟩

instance : SMul ℝ V3R := ⟨fun c a => ⟨c * a.x, c * a.y, c * a.z⟩⟩

/-- Inclusion of rational vectors into real vectors. -/
def toR (a : V3) : V3R := ⟨(a.x : ℝ), (a.y : ℝ), (a.z : ℝ)⟩

/-- Dot product over `ℝ`. -/
def dotR (a b : V3R) : ℝ := a.x * b.x + a.y * b.y + a.z * b.z

/-- Euclidean norm of a real vector. -/
noncomputable def norm3R (a : V3R) : ℝ := Real.sqrt (dotR a a)

/-! ### Constants (App.tsx lines 520-522) -/

/-- `const MOVE_SPEED = 5` (units per second). -/
def MOVE_SPEED : ℚ := 5

/-- `const PLAYER_HEIGHT = 1.6`. -/
def PLAYER_HEIGHT : ℚ := 8 / 5

/-- `const COLLISION_THRESHOLD = 0.6`: the probe distance the raycaster is
bounded by (`raycaster.far = COLLISION_THRESHOLD`, App.tsx line 784).
The bound is folded into the abstract ray query `hit`. -/
def COLLISION_THRESHOLD : ℚ := 3 / 5

/-! ### View registry (App.tsx lines 525-570) -/

/-- A target camera state: `{ id, position, lookAt, fov }`. -/
structure CameraState where
  id : String
  position : V3
  lookAt : V3
  fov : ℚ
deriving DecidableEq, Repr

/-- `baseRoomCoordinates.hall = (5, PLAYER_HEIGHT, 8)`. -/
def hallCoord : V3 := ⟨5, PLAYER_HEIGHT, 8⟩

/-- `baseRoomCoordinates.bedroom = (4, PLAYER_HEIGHT, 4)`. -/
def bedroomCoord : V3 := ⟨4, PLAYER_HEIGHT, 4⟩

/-- `baseRoomCoordinates.kitchen = (10, PLAYER_HEIGHT, 3)`. -/
def kitchenCoord : V3 := ⟨10, PLAYER_HEIGHT, 3⟩

/-- `baseRoomCoordinates.default = (0, PLAYER_HEIGHT, 5)`. -/
def defaultCoord : V3 := ⟨0, PLAYER_HEIGHT, 5⟩

/-- `viewCameraStates.topView`. -/
def topViewState : CameraState :=
  { id := "topView", position := ⟨0, 25, 5⟩, lookAt := ⟨0, 0, 0⟩, fov := 60 }

/-- `viewCameraStates.hall`: looks five units forward (negative z). -/
def hallState : CameraState :=
  { id := "hall", position := hallCoord
    lookAt := ⟨hallCoord.x, PLAYER_HEIGHT, hallCoord.z - 5⟩, fov := 50 }

/-- `viewCameraStates.bedroom`. -/
def bedroomState : CameraState :=
  { id := "bedroom", position := bedroomCoord
    lookAt := ⟨bedroomCoord.x, PLAYER_HEIGHT, bedroomCoord.z - 5⟩, fov := 50 }

/-- `viewCameraStates.kitchen`. -/
def kitchenState : CameraState :=
  { id := "kitchen", position := kitchenCoord
    lookAt := ⟨kitchenCoord.x, PLAYER_HEIGHT, kitchenCoord.z - 5⟩, fov := 50 }

/-- `viewCameraStates.default`. -/
def defaultState : CameraState :=
  { id := "default", position := defaultCoord
    lookAt := ⟨defaultCoord.x, PLAYER_HEIGHT, defaultCoord.z - 5⟩, fov := 50 }

/-- `viewCameraStates.walkMode`: default position, wider field of view. -/
def walkModeState : CameraState :=
  { id := "walkMode", position := defaultCoord
    lookAt := ⟨defaultCoord.x, PLAYER_HEIGHT, defaultCoord.z - 5⟩, fov := 60 }

/-- The closed enumeration `type ViewKey = keyof typeof viewCameraStates`. -/
inductive ViewKey where
  | topView
  | hall
  | bedroom
  | kitchen
  | defaultView
  | walkMode
deriving DecidableEq, Repr

/-- The property name each `ViewKey` denotes in the TypeScript object. -/
def keyId : ViewKey → String
  | ViewKey.topView => "topView"
  | ViewKey.hall => "hall"
  | ViewKey.bedroom => "bedroom"
  | ViewKey.kitchen => "kitchen"
  | ViewKey.defaultView => "default"
  | ViewKey.walkMode => "walkMode"

/-- The pose each `ViewKey` maps to in `viewCameraStates`. -/
def viewState : ViewKey → CameraState
  | ViewKey.topView => topViewState
  | ViewKey.hall => hallState
  | ViewKey.bedroom => bedroomState
  | ViewKey.kitchen => kitchenState
  | ViewKey.defaultView => defaultState
  | ViewKey.walkMode => walkModeState

/-- JavaScript property access `viewCameraStates[key]` for an arbitrary
string key: `some` of the matching pose, `none` when the key is not a
property of the object. -/
def lookupView (k : String) : Option CameraState :=
  if k = "topView" then some topViewState
  else if k = "hall" then some hallState
  else if k = "bedroom" then some bedroomState
  else if k = "kitchen" then some kitchenState
  else if k = "default" then some defaultState
  else if k = "walkMode" then some walkModeState
  else none

/-- The defensive pose lookup of App.tsx line 963:
`viewCameraStates[currentViewKey] || viewCameraStates.default`
(every pose object is truthy, so the fallback fires exactly when the
property access yields `undefined`). -/
def poseFor (k : String) : CameraState :=
  (lookupView k).getD defaultState

/-! ### Navigation coordinator state (App.tsx lines 926-968, 1083-1095) -/

/-- The value of the `activeControls` state variable:
`'fps' | 'orbit' | 'none'`. -/
inductive Controls where
  | fps
  | orbit
  | off
deriving DecidableEq, Repr

/-- The combined React state of `App` and `SceneContent` that drives the
navigation state machine. `pendingPause` models a scheduled (not yet
fired) `setTimeout` pause callback from the spin spring `onRest`,
carrying the value of `nextIdx` that the callback closure captured. -/
structure NavState where
  currentViewKey : ViewKey
  tourStarted : Bool
  playerInitialPos : V3
  activeControls : Controls
  isTransitioning : Bool
  cameraAnimationTarget : Option CameraState
  tourIdx : Nat
  tourActive : Bool
  isSpinning : Bool
  nextIdx : Nat
  pendingPause : Option Nat
deriving DecidableEq, Repr

/-- `const waypoints = ['hall', 'bedroom', 'kitchen'] as const`. -/
def waypoints : List ViewKey := [ViewKey.hall, ViewKey.bedroom, ViewKey.kitchen]

/-- Observable actions of a run, used to record which waypoints a tour
visits, where a look around spin is started, and when the tour ends. -/
inductive TourAction where
  | visit (v : ViewKey)
  | spinStart (v : ViewKey)
  | tourEnd
deriving DecidableEq, Repr

/-- The external and internal events the coordinator reacts to:
a `navigateTo` call (button, hotspot or tour callback), a Start Tour
click, the transition spring coming to rest, the spin spring coming to
rest, and the 2 second pause timeout elapsing. -/
inductive Event where
  | navigate (v : ViewKey)
  | startTour
  | transitionComplete
  | spinComplete
  | pauseElapsed
deriving DecidableEq, Repr

/-- Effect of `handleNavigate` (App.tsx lines 1087-1089,
`setCurrentViewKey`) followed by the `useEffect` keyed on
`currentViewKey` (lines 959-968).  When the requested key equals the
current one the state update is a no-op and the effect does not re-run;
otherwise the effect starts a transition: `setIsTransitioning(true)`,
`setActiveControls('none')`, `setCameraAnimationTarget(targetState)` and,
for every key other than `topView`, `setPlayerInitialPos`.  Returns the
new state together with the begun transition as a `visit` action. -/
def navStepL (s : NavState) (v : ViewKey) : NavState × List TourAction :=
  if v = s.currentViewKey then (s, [])
  else
    ({ s with
        currentViewKey := v
        isTransitioning := true
        activeControls := Controls.off
        cameraAnimationTarget := some (viewState v)
        playerInitialPos :=
          if v = ViewKey.topView then s.playerInitialPos
          else (viewState v).position },
      [TourAction.visit v])

/-- Effect of `handleAnimationEnd` (App.tsx lines 970-999), invoked by the
transition spring `onRest` while a transition is active. -/
def handleAnimationEndL (s : NavState) : NavState × List TourAction :=
  if s.tourActive && !s.isSpinning then
    if s.tourIdx < waypoints.length - 1 then
      ({ s with
          nextIdx := s.tourIdx + 1
          isSpinning := true
          isTransitioning := false },
        [TourAction.spinStart s.currentViewKey])
    else
      ({ s with tourActive := false, activeControls := Controls.fps },
        [TourAction.tourEnd])
  else
    ({ s with
        isTransitioning := false
        cameraAnimationTarget := none
        activeControls :=
          if s.currentViewKey = ViewKey.topView then Controls.orbit
          else Controls.fps },
      [])

/-- One step of the coordinator on an event, with the emitted actions.

* `navigate`: `handleNavigate` plus the `currentViewKey` effect.
* `startTour`: `handleStartTour` sets `tourStarted` to `true`; the
  `useEffect` keyed on `tourStarted` (App.tsx lines 951-957) re-runs only
  when the flag actually changed, and then does `setTourActive(true)`,
  `setTourIdx(0)`, `navigateTo(waypoints[0])`.
* `transitionComplete`: the spring `onRest` guard
  (`if (isTransitioning) onAnimationComplete()`, App.tsx line 906).
* `spinComplete`: the spin spring `onRest` (App.tsx lines 1009-1017)
  schedules the 2 second timeout when `isSpinning` holds; the callback
  closure captures the current `nextIdx`.
* `pauseElapsed`: the scheduled timeout fires unconditionally:
  `setTourIdx(nextIdx)`, `navigateTo(waypoints[nextIdx])`,
  `setIsSpinning(false)`. -/
def stepL (s : NavState) : Event → NavState × List TourAction
  | Event.navigate v => navStepL s v
  | Event.startTour =>
      if s.tourStarted then (s, [])
      else
        navStepL
          { s with tourStarted := true, tourActive := true, tourIdx := 0 }
          (waypoints.getD 0 ViewKey.hall)
  | Event.transitionComplete =>
      if s.isTransitioning then handleAnimationEndL s else (s, [])
  | Event.spinComplete =>
      if s.isSpinning then ({ s with pendingPause := some s.nextIdx }, [])
      else (s, [])
  | Event.pauseElapsed =>
      match s.pendingPause with
      | some i =>
          let r :=
            navStepL { s with tourIdx := i, pendingPause := none }
              (waypoints.getD i ViewKey.hall)
          ({ r.1 with isSpinning := false }, r.2)
      | none => (s, [])

/-- One step of the coordinator, state part only. -/
def step (s : NavState) (e : Event) : NavState := (stepL s e).1

/-- Run a list of events from a state. -/
def run (s : NavState) (es : List Event) : NavState := es.foldl step s

/-- The actions emitted while running a list of events. -/
def runLog (s : NavState) : List Event → List TourAction
  | [] => []
  | e :: rest => (stepL s e).2 ++ runLog (step s e) rest

/-- The state right after mount: `currentViewKey = 'default'`,
`tourStarted = false`, and the mount run of the `currentViewKey` effect
has already begun the initial transition to the default pose
(`isTransitioning = true`, `activeControls = 'none'`). -/
def initState : NavState :=
  { currentViewKey := ViewKey.defaultView
    tourStarted := false
    playerInitialPos := defaultState.position
    activeControls := Controls.off
    isTransitioning := true
    cameraAnimationTarget := some defaultState
    tourIdx := 0
    tourActive := false
    isSpinning := false
    nextIdx := 0
    pendingPause := none }

/-- The event order of a tour that is started from the settled initial
state and runs to completion with no user interference: the initial
transition completes, Start Tour is clicked, and then each waypoint
arrival, spin end and pause end fires in sequence. -/
def tourRunEvents : List Event :=
  [Event.transitionComplete,
   Event.startTour,
   Event.transitionComplete,
   Event.spinComplete,
   Event.pauseElapsed,
   Event.transitionComplete,
   Event.spinComplete,
   Event.pauseElapsed,
   Event.transitionComplete]

/-! ### CameraAnimator spring (App.tsx lines 867-922) -/

/-- A camera pose: position, look at point, field of view. -/
structure Pose where
  position : V3
  look : V3
  fov : ℚ
deriving DecidableEq, Repr

/-- The zero pose, used as the rest velocity of a freshly reset spring. -/
def poseZero : Pose := { position := 0, look := 0, fov := 0 }

/-- The state of the `useSpring` animation of `CameraAnimator`: the
current animated values (`posX ... fov`, written to the camera every
frame), their velocities, and the goal values (`to`). -/
structure SpringState where
  cur : Pose
  vel : Pose
  target : Pose
deriving DecidableEq, Repr

/-- Retriggering the spring while a transition is active
(`isTransitioning` stays `true`, so `reset: !isTransitioning` is `false`):
react-spring keeps the animated values and velocities and only the goal
changes. -/
def retarget (s : SpringState) (t : Pose) : SpringState := { s with target := t }

/-- Starting a transition from rest (the spring was reset while idle):
the `from` values are the live camera pose captured at that instant
(`camera.position`, the point five units along the current view
direction, `camera.fov`; App.tsx lines 873-889), with zero velocity. -/
def beginTransition (cam : Pose) (t : Pose) : SpringState :=
  { cur := cam, vel := poseZero, target := t }

/-- The pose the `useFrame` callback writes to the camera while
`isTransitioning` holds (App.tsx lines 912-919): the current spring
values. -/
def springPose (s : SpringState) : Pose := s.cur

/-! ### PlayerControls per frame movement (App.tsx lines 762-853) -/

/-- The `movement` ref: one flag per directional key. -/
structure Movement where
  forward : Bool
  backward : Bool
  left : Bool
  right : Bool
deriving DecidableEq, Repr

/-- The inputs one `useFrame` tick of `PlayerControls` reads: the
component props (`enabled`, `isWalkMode`), the input refs (`movement`,
`mouseIsDown`), whether the pointer is locked to the canvas, the camera
forward direction already projected onto the horizontal plane and
normalised (App.tsx lines 775-778), and the frame time `delta`. -/
structure FrameInput where
  enabled : Bool
  isWalkMode : Bool
  pointerLocked : Bool
  mv : Movement
  mouseIsDown : Bool
  forwardDir : V3
  delta : ℚ

/-- A ray query against the loaded scene geometry: given the ray origin
(the camera position) and a direction, reports whether
`raycaster.intersectObject(model, true)` finds a hit within
`COLLISION_THRESHOLD`. -/
def HitFn : Type := V3R → V3 → Bool

/-- `rightDir = cross(camera.up, forwardDir)` with `camera.up = (0,1,0)`
(App.tsx lines 780-781); for a unit horizontal `forwardDir` the
subsequent `.normalize()` is the identity. -/
def rightOf (fwd : V3) : V3 := ⟨fwd.z, 0, -fwd.x⟩

/-- The five probe directions of a frame: keyboard forward, backward,
left, right, and the mouse driven forward of walk mode. -/
inductive ProbeDir where
  | pforward
  | pbackward
  | pleft
  | pright
  | pmouse
deriving DecidableEq, Repr

/-- The direction vector each probe is cast along. -/
def probeVec (fwd : V3) : ProbeDir → V3
  | ProbeDir.pforward => fwd
  | ProbeDir.pbackward => -fwd
  | ProbeDir.pleft => -(rightOf fwd)
  | ProbeDir.pright => rightOf fwd
  | ProbeDir.pmouse => fwd

/-- The accumulated `moveDelta` of one frame (App.tsx lines 783-844):
for each pressed key the corresponding direction is probed and, when
clear, contributes `speedDelta` along it; in walk mode a held mouse
button adds a forward contribution when the forward probe is clear and
the forward key is not already providing an unblocked forward step. -/
def moveDelta (hit : HitFn) (inp : FrameInput) (pos : V3R) : V3 :=
  let speedDelta := MOVE_SPEED * inp.delta
  let forwardDir := inp.forwardDir
  let rightDir := rightOf forwardDir
  let m1 :=
    if inp.mv.forward && !(hit pos forwardDir) then speedDelta • forwardDir
    else 0
  let m2 :=
    if inp.mv.backward && !(hit pos (-forwardDir)) then
      speedDelta • (-forwardDir)
    else 0
  let m3 :=
    if inp.mv.left && !(hit pos (-rightDir)) then speedDelta • (-rightDir)
    else 0
  let m4 :=
    if inp.mv.right && !(hit pos rightDir) then speedDelta • rightDir
    else 0
  let m5 :=
    if inp.isWalkMode && inp.mouseIsDown && !(hit pos forwardDir)
        && !(inp.mv.forward && !(hit pos forwardDir)) then
      speedDelta • forwardDir
    else 0
  m1 + m2 + m3 + m4 + m5

/-- The final normalise and rescale of App.tsx lines 847-849:
`if (moveDelta.lengthSq() > 0) moveDelta.normalize().multiplyScalar(speedDelta)`,
that is `(speedDelta / length) * moveDelta` when the length is positive. -/
noncomputable def normalizeScale (v : V3) (speedDelta : ℚ) : V3R :=
  if 0 < dotQ v v then
    (((speedDelta : ℚ) : ℝ) / Real.sqrt ((dotQ v v : ℚ) : ℝ)) • toR v
  else toR v

/-- The displacement applied to the camera position in one active frame. -/
noncomputable def appliedDisp (hit : HitFn) (inp : FrameInput) (pos : V3R) : V3R :=
  normalizeScale (moveDelta hit inp pos) (MOVE_SPEED * inp.delta)

/-- One `useFrame` tick of `PlayerControls` (App.tsx lines 762-853),
returning the new camera position.  Early returns: the component is
disabled; a non walk mode without pointer lock; no model loaded.
Otherwise `camera.position.add(moveDelta)` followed by
`camera.position.y = PLAYER_HEIGHT`. -/
noncomputable def playerFrame (model : Option HitFn) (inp : FrameInput)
    (pos : V3R) : V3R :=
  if !inp.enabled then pos
  else if !inp.isWalkMode && !inp.pointerLocked then pos
  else
    match model with
    | none => pos
    | some hit =>
        let d := appliedDisp hit inp pos
        let moved : V3R := ⟨pos.x + d.x, pos.y + d.y, pos.z + d.z⟩
        ⟨moved.x, ((PLAYER_HEIGHT : ℚ) : ℝ), moved.z⟩

/-- Entering the active free roam state (App.tsx lines 663-668):
`camera.position.copy(initialPosition); camera.position.y = PLAYER_HEIGHT`. -/
def enterFreeRoam (initialPosition : V3R) : V3R :=
  ⟨initialPosition.x, ((PLAYER_HEIGHT : ℚ) : ℝ), initialPosition.z⟩

/-- A sequence of free roam frames, each with its own loaded model and
frame inputs, folded over the camera position. -/
noncomputable def runFrames (fs : List (Option HitFn × FrameInput))
    (pos : V3R) : V3R :=
  fs.foldl (fun p f => playerFrame f.1 f.2 p) pos

/-! ### Concrete frame inputs used to exercise the movement code -/

/-- A scene geometry whose ray query blocks exactly the direction
`(0, 0, -1)`, regardless of the ray origin. -/
def c5Hit : HitFn := fun _ d => decide (d = ⟨0, 0, -1⟩)

/-- A walk frame with the camera facing `(0, 0, -1)`, the forward and
backward keys both pressed, and one second of elapsed time. -/
def c5Input : FrameInput :=
  { enabled := true, isWalkMode := false, pointerLocked := true
    mv := { forward := true, backward := true, left := false, right := false }
    mouseIsDown := false, forwardDir := ⟨0, 0, -1⟩, delta := 1 }

/-- A concrete camera position at eye height. -/
noncomputable def c5Pos : V3R := ⟨0, 8 / 5, 5⟩

/-- A scene geometry whose ray query never reports a hit. -/
def c6Hit : HitFn := fun _ _ => false

/-- A frame with the camera facing `(0, 0, -1)` and the forward and
right keys both pressed (a diagonal move), one second of elapsed time. -/
def c6Input : FrameInput :=
  { enabled := true, isWalkMode := false, pointerLocked := true
    mv := { forward := true, backward := false, left := false, right := true }
    mouseIsDown := false, forwardDir := ⟨0, 0, -1⟩, delta := 1 }

/-- A concrete camera position at eye height. -/
noncomputable def c6Pos : V3R := ⟨2, 8 / 5, 3⟩

/-! ### Helper lemmas on the coordinator -/

theorem navStepL_tourStarted (s : NavState) (v : ViewKey) :
    ((navStepL s v).1).tourStarted = s.tourStarted := by
  unfold navStepL
  split <;> rfl

theorem handleAnimationEndL_tourStarted (s : NavState) :
    ((handleAnimationEndL s).1).tourStarted = s.tourStarted := by
  unfold handleAnimationEndL
  split
  · split <;> rfl
  · rfl

/-! ### Claims about the view registry -/

/-- C9: the pose lookup is a total function: for every key of the closed
enumeration it deterministically returns the fixed pose of that key, and
for any string that is not a property of `viewCameraStates` the
expression `viewCameraStates[key] || viewCameraStates.default` falls back
to the `default` pose rather than erroring. -/
theorem c9_pose_lookup_total :
    (∀ k : ViewKey, poseFor (keyId k) = viewState k) ∧
    (∀ s : String, lookupView s = none → poseFor s = defaultState) := by
  constructor
  · intro k
    cases k <;> rfl
  · intro s h
    simp [poseFor, h]

/-- C9 witness: a concrete unrecognized key falls back to the default
pose. -/
theorem c9_pose_lookup_total_witness :
    lookupView "garage" = none ∧ poseFor "garage" = defaultState :=
  ⟨by decide, c9_pose_lookup_total.2 "garage" (by decide)⟩

/-! ### Claims about the navigation coordinator -/

/-- C1 counterexample: a manual `navigateTo('kitchen')` in the middle of
the rotation at waypoint `hall` does not abort the tour.  After the
request, `tourActive` and `isSpinning` are still `true` (the tour state
did not return to Idle), and when the pending rotation and pause
callbacks of the tour later fire they navigate the camera to `bedroom`,
overriding the requested `kitchen` view. -/
theorem c1_counterexample :
    (run initState
        [Event.transitionComplete, Event.startTour, Event.transitionComplete,
         Event.navigate ViewKey.kitchen]).tourActive = true ∧
    (run initState
        [Event.transitionComplete, Event.startTour, Event.transitionComplete,
         Event.navigate ViewKey.kitchen]).isSpinning = true ∧
    (run initState
        [Event.transitionComplete, Event.startTour, Event.transitionComplete,
         Event.navigate ViewKey.kitchen, Event.spinComplete,
         Event.pauseElapsed]).currentViewKey = ViewKey.bedroom := by
  decide

/-- C1 amended: a manual navigation request while a tour is active starts
a transition towards the requested view (the mode includes
`Transitioning(view)`), but it does not abort the tour: `tourActive`
remains `true`, an in-progress rotation keeps spinning, and a pending
pause callback stays scheduled and will still fire. -/
theorem c1_navigate_during_tour (s : NavState) (v : ViewKey)
    (ht : s.tourActive = true) (hv : v ≠ s.currentViewKey) :
    (step s (Event.navigate v)).isTransitioning = true ∧
    (step s (Event.navigate v)).cameraAnimationTarget = some (viewState v) ∧
    (step s (Event.navigate v)).tourActive = true ∧
    (step s (Event.navigate v)).isSpinning = s.isSpinning ∧
    (step s (Event.navigate v)).pendingPause = s.pendingPause := by
  simp [step, stepL, navStepL, hv, ht]

/-- C1 amended witness: the amended statement at the concrete state
reached by starting the tour and arriving at `hall`. -/
theorem c1_navigate_during_tour_witness :
    (run initState
        [Event.transitionComplete, Event.startTour,
         Event.transitionComplete]).tourActive = true ∧
    (step
        (run initState
          [Event.transitionComplete, Event.startTour, Event.transitionComplete])
        (Event.navigate ViewKey.kitchen)).tourActive = true :=
  ⟨by decide,
    (c1_navigate_during_tour
      (run initState
        [Event.transitionComplete, Event.startTour, Event.transitionComplete])
      ViewKey.kitchen (by decide) (by decide)).2.2.1⟩

/-- C2 counterexample: in the full uninterrupted tour run the tour ends
on arrival at the last waypoint `kitchen` without ever starting a 360
degree look around there: the run log contains no `spinStart kitchen`,
and after the final arrival the tour is over (`tourActive = false`,
`isSpinning = false`, no pause callback pending), so no later spin can
occur.  This refutes the claim that a full look around is performed at
every visited waypoint including the last. -/
theorem c2_counterexample :
    (runLog initState tourRunEvents).count
        (TourAction.spinStart ViewKey.kitchen) = 0 ∧
    (run initState tourRunEvents).tourActive = false ∧
    (run initState tourRunEvents).isSpinning = false ∧
    (run initState tourRunEvents).pendingPause = none := by
  decide

/-- C2 amended: the uninterrupted tour visits the waypoints `hall`,
`bedroom`, `kitchen` each exactly once, in that order; it performs the
360 degree look around at `hall` and at `bedroom` but not at the final
waypoint `kitchen` (the tour terminates on arrival there); and it ends in
a state that is not touring (`tourActive = false`, first person controls
re-enabled) in which a subsequent manual navigation request starts a
transition normally. -/
theorem c2_tour_run :
    runLog initState tourRunEvents =
      [TourAction.visit ViewKey.hall, TourAction.spinStart ViewKey.hall,
       TourAction.visit ViewKey.bedroom, TourAction.spinStart ViewKey.bedroom,
       TourAction.visit ViewKey.kitchen, TourAction.tourEnd] ∧
    (run initState tourRunEvents).tourActive = false ∧
    (run initState tourRunEvents).activeControls = Controls.fps ∧
    (step (run initState tourRunEvents)
        (Event.navigate ViewKey.topView)).isTransitioning = true ∧
    (step (run initState tourRunEvents)
        (Event.navigate ViewKey.topView)).cameraAnimationTarget
      = some topViewState := by
  decide

/-- C3: a transition retriggered before the previous one finished starts
from the camera pose that is live at that instant: retargeting the active
spring keeps the animated values, so the pose written to the camera
immediately after the retrigger equals the pose immediately before it;
and a transition started from rest anchors the spring at the live camera
pose captured when it begins.  No discontinuous jump occurs at the
boundary. -/
theorem c3_retrigger_continuity (s : SpringState) (t : Pose)
    (cam : Pose) (target : Pose) :
    springPose (retarget s t) = springPose s ∧
    springPose (beginTransition cam target) = cam :=
  ⟨rfl, rfl⟩

/-- C4: when a transition completes while no tour is active, the
resulting controls are orbit inspection exactly for `topView`, and first
person free roam for every other view. -/
theorem c4_completion_mode (s : NavState) (h1 : s.tourActive = false)
    (h2 : s.isTransitioning = true) :
    ((step s Event.transitionComplete).activeControls = Controls.orbit ↔
      s.currentViewKey = ViewKey.topView) ∧
    (s.currentViewKey ≠ ViewKey.topView →
      (step s Event.transitionComplete).activeControls = Controls.fps) := by
  have hstep : step s Event.transitionComplete = (handleAnimationEndL s).1 := by
    simp [step, stepL, h2]
  rw [hstep]
  unfold handleAnimationEndL
  by_cases hv : s.currentViewKey = ViewKey.topView <;> simp [h1, hv]

/-- C4 witness: completing the initial transition of a run that navigated
to `topView` yields orbit controls, and completing one that navigated to
`walkMode` yields first person controls. -/
theorem c4_completion_mode_witness :
    ((step (run initState [Event.navigate ViewKey.topView])
        Event.transitionComplete).activeControls = Controls.orbit ↔
      (run initState [Event.navigate ViewKey.topView]).currentViewKey
        = ViewKey.topView) ∧
    (step (run initState [Event.navigate ViewKey.walkMode])
        Event.transitionComplete).activeControls = Controls.fps :=
  ⟨(c4_completion_mode (run initState [Event.navigate ViewKey.topView])
      (by decide) (by decide)).1,
   (c4_completion_mode (run initState [Event.navigate ViewKey.walkMode])
      (by decide) (by decide)).2 (by decide)⟩

/-- C10: starting the tour latches permanently within a session: once
`tourStarted` is `true` it stays `true` under every event, and a
subsequent Start Tour request leaves the whole state unchanged (the
effect keyed on `tourStarted` does not re-run), so at most one tour can
ever be started per session, also after the first tour completed. -/
theorem c10_tour_latch (s : NavState) (h : s.tourStarted = true) :
    (∀ e : Event, (step s e).tourStarted = true) ∧
    step s Event.startTour = s := by
  constructor
  · intro e
    cases e with
    | navigate v =>
        show ((navStepL s v).1).tourStarted = true
        rw [navStepL_tourStarted]; exact h
    | startTour => simp [step, stepL, h]
    | transitionComplete =>
        by_cases ht : s.isTransitioning <;>
          simp [step, stepL, ht, handleAnimationEndL_tourStarted, h]
    | spinComplete =>
        by_cases hs : s.isSpinning <;> simp [step, stepL, hs, h]
    | pauseElapsed =>
        cases hp : s.pendingPause with
        | none => simp [step, stepL, hp, h]
        | some i => simp [step, stepL, hp, navStepL_tourStarted, h]
  · simp [step, stepL, h]

/-- C10 witness: after the full tour run (in which `tourStarted` became
`true`), a second Start Tour request changes nothing and the latch
survives a further navigation event. -/
theorem c10_tour_latch_witness :
    step (run initState tourRunEvents) Event.startTour
      = run initState tourRunEvents ∧
    (step (run initState tourRunEvents)
        (Event.navigate ViewKey.hall)).tourStarted = true :=
  ⟨(c10_tour_latch (run initState tourRunEvents) (by decide)).2,
   (c10_tour_latch (run initState tourRunEvents) (by decide)).1
      (Event.navigate ViewKey.hall)⟩

/-! ### Componentwise vector lemmas -/

theorem V3_add_x (a b : V3) : (a + b).x = a.x + b.x := rfl

theorem V3_add_y (a b : V3) : (a + b).y = a.y + b.y := rfl

theorem V3_add_z (a b : V3) : (a + b).z = a.z + b.z := rfl

theorem V3_neg_x (a : V3) : (-a).x = -a.x := rfl

theorem V3_neg_y (a : V3) : (-a).y = -a.y := rfl

theorem V3_neg_z (a : V3) : (-a).z = -a.z := rfl

theorem V3_smul_x (c : ℚ) (a : V3) : (c • a).x = c * a.x := rfl

theorem V3_smul_y (c : ℚ) (a : V3) : (c • a).y = c * a.y := rfl

theorem V3_smul_z (c : ℚ) (a : V3) : (c • a).z = c * a.z := rfl

theorem V3_zero_x : (0 : V3).x = 0 := rfl

theorem V3_zero_y : (0 : V3).y = 0 := rfl

theorem V3_zero_z : (0 : V3).z = 0 := rfl

attribute [simp] V3_add_x V3_add_y V3_add_z V3_neg_x V3_neg_y V3_neg_z
  V3_smul_x V3_smul_y V3_smul_z V3_zero_x V3_zero_y V3_zero_z

theorem V3_neg_mk (x y z : ℚ) : -(V3.mk x y z) = ⟨-x, -y, -z⟩ := rfl

theorem V3_smul_mk (c x y z : ℚ) : c • V3.mk x y z = ⟨c * x, c * y, c * z⟩ := rfl

theorem V3_add_mk (x1 y1 z1 x2 y2 z2 : ℚ) :
    V3.mk x1 y1 z1 + V3.mk x2 y2 z2 = ⟨x1 + x2, y1 + y2, z1 + z2⟩ := rfl

theorem V3_ext {a b : V3} (hx : a.x = b.x) (hy : a.y = b.y) (hz : a.z = b.z) :
    a = b := by
  obtain ⟨x1, y1, z1⟩ := a
  obtain ⟨x2, y2, z2⟩ := b
  cases hx; cases hy; cases hz; rfl

theorem V3_add_zero (a : V3) : a + 0 = a := V3_ext (by simp) (by simp) (by simp)

theorem V3_zero_add (a : V3) : 0 + a = a := V3_ext (by simp) (by simp) (by simp)

attribute [simp] V3_add_zero V3_zero_add

theorem dotQ_add_left (a b w : V3) : dotQ (a + b) w = dotQ a w + dotQ b w := by
  simp [dotQ]; ring

theorem dotQ_add_right (w a b : V3) : dotQ w (a + b) = dotQ w a + dotQ w b := by
  simp [dotQ]; ring

theorem dotQ_smul_left (c : ℚ) (a w : V3) : dotQ (c • a) w = c * dotQ a w := by
  simp [dotQ]; ring

theorem dotQ_smul_right (c : ℚ) (w a : V3) : dotQ w (c • a) = c * dotQ w a := by
  simp [dotQ]; ring

theorem dotQ_zero_left (w : V3) : dotQ 0 w = 0 := by
  simp [dotQ]

theorem dotQ_neg_left (a w : V3) : dotQ (-a) w = -dotQ a w := by
  simp [dotQ]; ring

theorem dotQ_neg_right (a w : V3) : dotQ a (-w) = -dotQ a w := by
  simp [dotQ]; ring

theorem dotQ_ite_left (c : Prop) [Decidable c] (a b w : V3) :
    dotQ (if c then a else b) w = if c then dotQ a w else dotQ b w := by
  split <;> rfl

theorem dotQ_self_nonneg (v : V3) : 0 ≤ dotQ v v := by
  unfold dotQ
  nlinarith [mul_self_nonneg v.x, mul_self_nonneg v.y, mul_self_nonneg v.z]

theorem dotQ_self_eq_zero {v : V3} (h : dotQ v v = 0) : v = 0 := by
  unfold dotQ at h
  have hx : v.x * v.x = 0 :=
    le_antisymm (by nlinarith [mul_self_nonneg v.y, mul_self_nonneg v.z])
      (mul_self_nonneg v.x)
  have hy : v.y * v.y = 0 :=
    le_antisymm (by nlinarith [mul_self_nonneg v.x, mul_self_nonneg v.z])
      (mul_self_nonneg v.y)
  have hz : v.z * v.z = 0 :=
    le_antisymm (by nlinarith [mul_self_nonneg v.x, mul_self_nonneg v.y])
      (mul_self_nonneg v.z)
  exact V3_ext (mul_self_eq_zero.mp hx) (mul_self_eq_zero.mp hy)
    (mul_self_eq_zero.mp hz)

theorem dotQ_fwd_right (f : V3) : dotQ f (rightOf f) = 0 := by
  simp [dotQ, rightOf]; ring

theorem dotQ_right_fwd (f : V3) : dotQ (rightOf f) f = 0 := by
  simp [dotQ, rightOf]; ring

theorem dotQ_right_self (f : V3) :
    dotQ (rightOf f) (rightOf f) = dotQ f f - f.y * f.y := by
  simp [dotQ, rightOf]; ring

theorem toR_x (a : V3) : (toR a).x = (a.x : ℝ) := rfl

theorem toR_y (a : V3) : (toR a).y = (a.y : ℝ) := rfl

theorem toR_z (a : V3) : (toR a).z = (a.z : ℝ) := rfl

theorem V3R_smul_x (c : ℝ) (a : V3R) : (c • a).x = c * a.x := rfl

theorem V3R_smul_y (c : ℝ) (a : V3R) : (c • a).y = c * a.y := rfl

theorem V3R_smul_z (c : ℝ) (a : V3R) : (c • a).z = c * a.z := rfl

attribute [simp] toR_x toR_y toR_z V3R_smul_x V3R_smul_y V3R_smul_z

theorem dotR_toR (a b : V3) : dotR (toR a) (toR b) = ((dotQ a b : ℚ) : ℝ) := by
  simp only [dotR, toR_x, toR_y, toR_z, dotQ]
  push_cast
  ring

theorem dotR_smul_left (c : ℝ) (a b : V3R) : dotR (c • a) b = c * dotR a b := by
  simp [dotR]; ring

theorem dotR_smul_right (c : ℝ) (a b : V3R) : dotR a (c • b) = c * dotR a b := by
  simp [dotR]; ring

theorem norm3R_smul (c : ℝ) (a : V3R) : norm3R (c • a) = |c| * norm3R a := by
  unfold norm3R
  rw [dotR_smul_left, dotR_smul_right,
    show c * (c * dotR a a) = c ^ 2 * dotR a a by ring,
    Real.sqrt_mul (sq_nonneg c), Real.sqrt_sq_eq_abs]

theorem norm3R_toR (v : V3) :
    norm3R (toR v) = Real.sqrt ((dotQ v v : ℚ) : ℝ) := by
  unfold norm3R
  rw [dotR_toR]

theorem norm3R_normalizeScale (v : V3) (sd : ℚ) (hs : 0 ≤ sd)
    (hq : 0 < dotQ v v) :
    norm3R (normalizeScale v sd) = ((sd : ℚ) : ℝ) := by
  unfold normalizeScale
  rw [if_pos hq, norm3R_smul, norm3R_toR]
  have hqR : (0 : ℝ) < ((dotQ v v : ℚ) : ℝ) := by exact_mod_cast hq
  have hsq : (0 : ℝ) < Real.sqrt ((dotQ v v : ℚ) : ℝ) := Real.sqrt_pos.mpr hqR
  rw [abs_of_nonneg (div_nonneg (by exact_mod_cast hs) hsq.le)]
  exact div_mul_cancel₀ _ (ne_of_gt hsq)

theorem norm3R_normalizeScale_zero (v : V3) (sd : ℚ) (hq : dotQ v v = 0) :
    norm3R (normalizeScale v sd) = 0 := by
  unfold normalizeScale
  rw [if_neg (by rw [hq]; exact lt_irrefl 0), dotQ_self_eq_zero hq, norm3R_toR,
    dotQ_zero_left]
  norm_num

/-! ### Per frame movement lemmas -/

theorem moveDelta_dot_blocked (hit : HitFn) (inp : FrameInput) (pos : V3R)
    (d : ProbeDir) (hs : 0 ≤ MOVE_SPEED * inp.delta)
    (hb : hit pos (probeVec inp.forwardDir d) = true) :
    dotQ (moveDelta hit inp pos) (probeVec inp.forwardDir d) ≤ 0 := by
  cases d with
  | pforward =>
      simp only [probeVec] at hb ⊢
      simp only [moveDelta, hb, Bool.not_true, Bool.and_false, Bool.false_and,
        dotQ_add_left, dotQ_ite_left, dotQ_smul_left, dotQ_zero_left,
        dotQ_neg_left, dotQ_fwd_right, dotQ_right_fwd]
      simp only [Bool.false_eq_true, if_false]
      split_ifs <;>
        nlinarith [dotQ_self_nonneg inp.forwardDir]
  | pbackward =>
      simp only [probeVec] at hb ⊢
      simp only [moveDelta, hb, Bool.not_true, Bool.and_false, Bool.false_and,
        dotQ_add_left, dotQ_ite_left, dotQ_smul_left, dotQ_zero_left,
        dotQ_neg_left, dotQ_neg_right, dotQ_fwd_right, dotQ_right_fwd]
      simp only [Bool.false_eq_true, if_false]
      split_ifs <;>
        nlinarith [dotQ_self_nonneg inp.forwardDir]
  | pleft =>
      simp only [probeVec] at hb ⊢
      simp only [moveDelta, hb, Bool.not_true, Bool.and_false, Bool.false_and,
        dotQ_add_left, dotQ_ite_left, dotQ_smul_left, dotQ_zero_left,
        dotQ_neg_left, dotQ_neg_right, dotQ_fwd_right, dotQ_right_fwd]
      simp only [Bool.false_eq_true, if_false]
      split_ifs <;>
        nlinarith [dotQ_self_nonneg (rightOf inp.forwardDir)]
  | pright =>
      simp only [probeVec] at hb ⊢
      simp only [moveDelta, hb, Bool.not_true, Bool.and_false, Bool.false_and,
        dotQ_add_left, dotQ_ite_left, dotQ_smul_left, dotQ_zero_left,
        dotQ_neg_left, dotQ_neg_right, dotQ_fwd_right, dotQ_right_fwd]
      simp only [Bool.false_eq_true, if_false]
      split_ifs <;>
        nlinarith [dotQ_self_nonneg (rightOf inp.forwardDir)]
  | pmouse =>
      simp only [probeVec] at hb ⊢
      simp only [moveDelta, hb, Bool.not_true, Bool.and_false, Bool.false_and,
        dotQ_add_left, dotQ_ite_left, dotQ_smul_left, dotQ_zero_left,
        dotQ_neg_left, dotQ_fwd_right, dotQ_right_fwd]
      simp only [Bool.false_eq_true, if_false]
      split_ifs <;>
        nlinarith [dotQ_self_nonneg inp.forwardDir]

theorem playerFrame_y (model : Option HitFn) (inp : FrameInput) (pos : V3R)
    (h : pos.y = ((PLAYER_HEIGHT : ℚ) : ℝ)) :
    (playerFrame model inp pos).y = ((PLAYER_HEIGHT : ℚ) : ℝ) := by
  unfold playerFrame
  split_ifs
  · exact h
  · exact h
  · cases model with
    | none => exact h
    | some hit => rfl

theorem runFrames_y (fs : List (Option HitFn × FrameInput)) (pos : V3R)
    (h : pos.y = ((PLAYER_HEIGHT : ℚ) : ℝ)) :
    (runFrames fs pos).y = ((PLAYER_HEIGHT : ℚ) : ℝ) := by
  induction fs generalizing pos with
  | nil => exact h
  | cons f t ih => exact ih (playerFrame f.1 f.2 pos) (playerFrame_y f.1 f.2 pos h)

/-! ### Claims about the per frame movement -/

/-- C5 counterexample: with the camera facing a wall (the forward probe
reports blocked) and both the forward and the backward key pressed, the
frame displacement is the backward step, whose component along the
blocked forward direction is `-speedDelta`, not zero.  The claim that the
final displacement has zero component along every blocked probed
direction is therefore false. -/
theorem c5_counterexample :
    c5Hit c5Pos (probeVec c5Input.forwardDir ProbeDir.pforward) = true ∧
    c5Input.mv.forward = true ∧
    dotR (appliedDisp c5Hit c5Input c5Pos)
        (toR (probeVec c5Input.forwardDir ProbeDir.pforward)) ≠ 0 := by
  refine ⟨by decide, by decide, ?_⟩
  have hmd : moveDelta c5Hit c5Input c5Pos = ⟨0, 0, 5⟩ := by
    apply V3_ext <;>
      norm_num [moveDelta, c5Hit, c5Input, rightOf, MOVE_SPEED,
        V3_neg_mk, V3_smul_mk, V3.mk.injEq]
  have hpv : probeVec c5Input.forwardDir ProbeDir.pforward = ⟨0, 0, -1⟩ := rfl
  have hms : MOVE_SPEED * c5Input.delta = 5 := by
    norm_num [MOVE_SPEED, c5Input]
  unfold appliedDisp normalizeScale
  rw [hmd, hpv, hms]
  have hq : dotQ (⟨0, 0, 5⟩ : V3) ⟨0, 0, 5⟩ = 25 := by norm_num [dotQ]
  rw [hq, if_pos (by norm_num : (0 : ℚ) < 25)]
  rw [dotR_smul_left, dotR_toR]
  have hd : dotQ (⟨0, 0, 5⟩ : V3) ⟨0, 0, -1⟩ = -5 := by norm_num [dotQ]
  rw [hd]
  have hsqrt : Real.sqrt ((25 : ℚ) : ℝ) = 5 := by
    rw [show ((25 : ℚ) : ℝ) = 5 ^ 2 by norm_num]
    exact Real.sqrt_sq (by norm_num)
  rw [hsqrt]
  norm_num

/-- C5 amended: if the collision probe in a candidate direction reports
blocked, the final displacement applied that frame has no positive
component along that direction (its dot product with the blocked
direction is at most zero); the blocked direction contributes nothing,
and only an opposite key can produce a (negative) component along it. -/
theorem c5_blocked_component (hit : HitFn) (inp : FrameInput) (pos : V3R)
    (d : ProbeDir) (hdelta : 0 ≤ inp.delta)
    (hb : hit pos (probeVec inp.forwardDir d) = true) :
    dotR (appliedDisp hit inp pos) (toR (probeVec inp.forwardDir d)) ≤ 0 := by
  have hs : 0 ≤ MOVE_SPEED * inp.delta := by
    have h5 : (0 : ℚ) ≤ 5 := by norm_num
    simpa [MOVE_SPEED] using mul_nonneg h5 hdelta
  have hcore := moveDelta_dot_blocked hit inp pos d hs hb
  unfold appliedDisp normalizeScale
  by_cases hq : 0 < dotQ (moveDelta hit inp pos) (moveDelta hit inp pos)
  · rw [if_pos hq, dotR_smul_left, dotR_toR]
    have hc : (0 : ℝ) ≤ ((MOVE_SPEED * inp.delta : ℚ) : ℝ) /
        Real.sqrt
          ((dotQ (moveDelta hit inp pos) (moveDelta hit inp pos) : ℚ) : ℝ) :=
      div_nonneg (by exact_mod_cast hs) (Real.sqrt_nonneg _)
    have hd :
        ((dotQ (moveDelta hit inp pos) (probeVec inp.forwardDir d) : ℚ) : ℝ)
          ≤ 0 := by
      exact_mod_cast hcore
    exact mul_nonpos_iff.mpr (Or.inl ⟨hc, hd⟩)
  · rw [if_neg hq, dotR_toR]
    have hzero : dotQ (moveDelta hit inp pos) (moveDelta hit inp pos) = 0 :=
      le_antisymm (not_lt.mp hq) (dotQ_self_nonneg _)
    rw [dotQ_self_eq_zero hzero, dotQ_zero_left]
    norm_num

/-- C5 amended witness: the amended bound at the concrete blocked frame
of the counterexample. -/
theorem c5_blocked_component_witness :
    c5Hit c5Pos (probeVec c5Input.forwardDir ProbeDir.pforward) = true ∧
    dotR (appliedDisp c5Hit c5Input c5Pos)
        (toR (probeVec c5Input.forwardDir ProbeDir.pforward)) ≤ 0 :=
  ⟨by decide,
    c5_blocked_component c5Hit c5Input c5Pos ProbeDir.pforward
      (by norm_num [c5Input]) (by decide)⟩

/-- C6: with the forward and right keys both pressed and both probes
clear, the diagonal frame displacement has magnitude not exceeding the
magnitude of the displacement of a single pressed unblocked key in the
same elapsed time; both equal the single step magnitude
`MOVE_SPEED * delta` (the combined vector is renormalised). -/
theorem c6_diagonal_speed (hit : HitFn) (inp : FrameInput) (pos : V3R)
    (hunit : dotQ inp.forwardDir inp.forwardDir = 1)
    (hy : inp.forwardDir.y = 0)
    (hdelta : 0 ≤ inp.delta)
    (hmv : inp.mv
      = { forward := true, backward := false, left := false, right := true })
    (hmouse : inp.mouseIsDown = false)
    (hf : hit pos inp.forwardDir = false)
    (hr : hit pos (rightOf inp.forwardDir) = false) :
    norm3R (appliedDisp hit inp pos)
      ≤ norm3R (appliedDisp hit
          { inp with
              mv := { forward := true, backward := false, left := false,
                      right := false } }
          pos) ∧
    norm3R (appliedDisp hit inp pos) = ((MOVE_SPEED * inp.delta : ℚ) : ℝ) := by
  have hs : 0 ≤ MOVE_SPEED * inp.delta := by
    have h5 : (0 : ℚ) ≤ 5 := by norm_num
    simpa [MOVE_SPEED] using mul_nonneg h5 hdelta
  have hmdD : moveDelta hit inp pos
      = (MOVE_SPEED * inp.delta) • inp.forwardDir
        + (MOVE_SPEED * inp.delta) • rightOf inp.forwardDir := by
    simp [moveDelta, hmv, hmouse, hf, hr]
  have hmdS : moveDelta hit
      { inp with
          mv := { forward := true, backward := false, left := false,
                  right := false } }
      pos = (MOVE_SPEED * inp.delta) • inp.forwardDir := by
    simp [moveDelta, hmouse, hf, hr]
  have hqD : dotQ (moveDelta hit inp pos) (moveDelta hit inp pos)
      = 2 * ((MOVE_SPEED * inp.delta) * (MOVE_SPEED * inp.delta)) := by
    rw [hmdD]
    simp only [dotQ_add_left, dotQ_add_right, dotQ_smul_left, dotQ_smul_right,
      dotQ_fwd_right, dotQ_right_fwd, dotQ_right_self, hunit, hy]
    ring
  have hqS : dotQ (moveDelta hit
      { inp with
          mv := { forward := true, backward := false, left := false,
                  right := false } }
      pos) (moveDelta hit
      { inp with
          mv := { forward := true, backward := false, left := false,
                  right := false } }
      pos) = (MOVE_SPEED * inp.delta) * (MOVE_SPEED * inp.delta) := by
    rw [hmdS]
    simp only [dotQ_smul_left, dotQ_smul_right, hunit]
    ring
  rcases eq_or_lt_of_le hs with h0 | hpos
  · have hqD0 : dotQ (moveDelta hit inp pos) (moveDelta hit inp pos) = 0 := by
      rw [hqD, ← h0]; ring
    have hqS0 : dotQ (moveDelta hit
        { inp with
            mv := { forward := true, backward := false, left := false,
                    right := false } }
        pos) (moveDelta hit
        { inp with
            mv := { forward := true, backward := false, left := false,
                    right := false } }
        pos) = 0 := by
      rw [hqS, ← h0]; ring
    unfold appliedDisp
    rw [norm3R_normalizeScale_zero _ _ hqD0, norm3R_normalizeScale_zero _ _ hqS0]
    exact ⟨le_refl 0, by rw [← h0]; norm_num⟩
  · have hqDpos : 0 < dotQ (moveDelta hit inp pos) (moveDelta hit inp pos) := by
      rw [hqD]; nlinarith
    have hqSpos : 0 < dotQ (moveDelta hit
        { inp with
            mv := { forward := true, backward := false, left := false,
                    right := false } }
        pos) (moveDelta hit
        { inp with
            mv := { forward := true, backward := false, left := false,
                    right := false } }
        pos) := by
      rw [hqS]; nlinarith
    unfold appliedDisp
    rw [norm3R_normalizeScale _ _ hs hqDpos, norm3R_normalizeScale _ _ hs hqSpos]
    exact ⟨le_refl _, rfl⟩

/-- C6 witness: the diagonal bound at a concrete frame with unit forward
direction and nothing blocked. -/
theorem c6_diagonal_speed_witness :
    dotQ c6Input.forwardDir c6Input.forwardDir = 1 ∧
    norm3R (appliedDisp c6Hit c6Input c6Pos)
      ≤ norm3R (appliedDisp c6Hit
          { c6Input with
              mv := { forward := true, backward := false, left := false,
                      right := false } }
          c6Pos) :=
  ⟨by norm_num [dotQ, c6Input],
    (c6_diagonal_speed c6Hit c6Input c6Pos (by norm_num [dotQ, c6Input]) rfl
      (by norm_num [c6Input]) rfl rfl rfl rfl).1⟩

/-- C7: the camera eye height is pinned exactly: it equals
`PLAYER_HEIGHT` when free roam is entered, and it still equals
`PLAYER_HEIGHT` after any sequence of free roam frames, whatever keys are
pressed, wherever the camera looks, and whatever the collision results
are. -/
theorem c7_eye_height (fs : List (Option HitFn × FrameInput)) (p0 : V3R) :
    (enterFreeRoam p0).y = ((PLAYER_HEIGHT : ℚ) : ℝ) ∧
    (runFrames fs (enterFreeRoam p0)).y = ((PLAYER_HEIGHT : ℚ) : ℝ) :=
  ⟨rfl, runFrames_y fs (enterFreeRoam p0) rfl⟩

/-- C8: in a frame with no loaded scene geometry the camera position is
left unchanged, whatever movement inputs are active. -/
theorem c8_no_model_no_movement (inp : FrameInput) (pos : V3R) :
    playerFrame none inp pos = pos := by
  unfold playerFrame
  split_ifs <;> rfl

end PropTour
